import Mathlib

/-!
Shallow embedding of the CAN diagnostic tools of the repository:
`CAN/python/dev-tester/vscantester.py` (device tester) and
`CAN/python/vscandump.py` (frame dump).

Python `bytes` values are modelled as lists of byte values (`List Nat`).
The serial transport is modelled by an explicit outcome for each write and
each read, since those are the only external effects the scripts perform.
An uncaught Python exception is modelled by an explicit `crash` outcome.
-/

namespace VSCan

/-- Python `bytes`: a list of byte values. -/
abbrev Bytes := List Nat

/-- Python slice `l[i:j]` for nonnegative bounds `i ≤ j` (out-of-range
bounds clamp, `j ≤ i` yields the empty slice, exactly as in Python). -/
def pySlice (l : Bytes) (i j : Nat) : Bytes := (l.take j).drop i

/-- Outcome of a `ser_port.write(...)` call: success, or a raised
`serial.serialutil.SerialException`. -/
inductive WriteOutcome where
  | ok
  | serialError
deriving DecidableEq

/-- Outcome of a `ser_port.read(n)` call: the accumulated bytes (a short or
empty buffer models a timeout), or a raised `SerialException`. -/
inductive ReadOutcome where
  | bytes (buf : Bytes)
  | serialError
deriving DecidableEq

/-- Result of running a Python fragment: a value, or an uncaught exception
that escapes the fragment. -/
inductive PyResult (α : Type) where
  | ok (a : α)
  | crash
deriving DecidableEq

/-- `VSCAN_OK = b'\r'` (vscantester.py line 17). -/
def VSCAN_OK : Bytes := [13]

/-- `VSCAN_KO = b'\x07'` (vscantester.py line 18). -/
def VSCAN_KO : Bytes := [7]

/-- `UsbCan.close_can_channel` (vscantester.py lines 58-75): write `C\r`
(write errors caught, return `False`), read 1 byte (read errors caught,
return `False`), then return `False` unless the buffer equals `VSCAN_KO`
or `VSCAN_OK`. -/
def close_can_channel (w : WriteOutcome) (r : ReadOutcome) : PyResult Bool :=
  match w with
  | .serialError => .ok false
  | .ok =>
    match r with
    | .serialError => .ok false
    | .bytes buf =>
      if buf ≠ VSCAN_KO ∧ buf ≠ VSCAN_OK then .ok false
      else .ok true

/-- Why a serial-number/version fetch returned `None`. -/
inductive FailReason where
  | writeError
  | wrongFirst (b : Nat)
  | wrongLast (b : Nat)
deriving DecidableEq

/-- Result of `get_serial_number` / `get_version_info`: the returned payload,
`None` with the printed reason, or an uncaught exception. -/
inductive FetchResult where
  | ok (payload : Bytes)
  | failed (r : FailReason)
  | crash
deriving DecidableEq

/-- Reply validation of `get_serial_number` (vscantester.py lines 94-103):
`buf[0]` must be 78 (`'N'`), `buf[len(buf)-1]` must be 13 (`'\r'`); on
success it returns `buf[1:len(buf)-2]`.  Indexing `buf[0]` on an empty
reply raises an uncaught `IndexError`. -/
def parse_serial_reply (buf : Bytes) : FetchResult :=
  if buf.length = 0 then .crash
  else if buf.getD 0 0 ≠ 78 then .failed (.wrongFirst (buf.getD 0 0))
  else if buf.getD (buf.length - 1) 0 ≠ 13 then
    .failed (.wrongLast (buf.getD (buf.length - 1) 0))
  else .ok (pySlice buf 1 (buf.length - 2))

/-- `UsbCan.get_serial_number` (vscantester.py lines 85-103): the write is
wrapped in `try/except SerialException` (prints, returns `None`), but the
`read(12)` on line 94 is not inside any `try` block, so a read-side
`SerialException` escapes the function. -/
def get_serial_number (w : WriteOutcome) (r : ReadOutcome) : FetchResult :=
  match w with
  | .serialError => .failed .writeError
  | .ok =>
    match r with
    | .serialError => .crash
    | .bytes buf => parse_serial_reply buf

/-- Reply validation of `get_version_info` (vscantester.py lines 114-123):
`buf[0]` must be 86 (`'V'`), `buf[len(buf)-1]` must be 13; on success it
returns `buf[1:len(buf)-1]`. -/
def parse_version_reply (buf : Bytes) : FetchResult :=
  if buf.length = 0 then .crash
  else if buf.getD 0 0 ≠ 86 then .failed (.wrongFirst (buf.getD 0 0))
  else if buf.getD (buf.length - 1) 0 ≠ 13 then
    .failed (.wrongLast (buf.getD (buf.length - 1) 0))
  else .ok (pySlice buf 1 (buf.length - 1))

/-- `UsbCan.get_version_info` (vscantester.py lines 105-123); as with the
serial number, the `read(6)` on line 114 is not inside a `try` block. -/
def get_version_info (w : WriteOutcome) (r : ReadOutcome) : FetchResult :=
  match w with
  | .serialError => .failed .writeError
  | .ok =>
    match r with
    | .serialError => .crash
    | .bytes buf => parse_version_reply buf

/-- Value of a single hex-ASCII character under Python `int(c, 16)`:
`0`-`9`, `A`-`F` and `a`-`f` are accepted, everything else raises
`ValueError`. -/
def hexDigitVal (c : Nat) : Option Nat :=
  if 48 ≤ c ∧ c ≤ 57 then some (c - 48)
  else if 65 ≤ c ∧ c ≤ 70 then some (c - 55)
  else if 97 ≤ c ∧ c ≤ 102 then some (c - 87)
  else none

/-- Python `int(b, 16)` on a bytes value made of hex digits: `none` models
the `ValueError` raised on an empty string or a non-hex character.  (The
slices fed to it by the tester are at most one character long.) -/
def pyIntHex (b : Bytes) : Option Nat :=
  match b with
  | [] => none
  | _ =>
    b.foldl (fun acc c => acc.bind fun a => (hexDigitVal c).map fun v => 16 * a + v)
      (some 0)

/-- The four decoded version components printed by `main`. -/
structure VersionNums where
  hw_major : Nat
  hw_minor : Nat
  fw_major : Nat
  fw_minor : Nat
deriving DecidableEq

/-- Version decoding in `main` (vscantester.py lines 241-244):
`ver_major = int(ver[2:3], 16)`, `ver_minor = int(ver[3:], 16)`,
`hw_major = int(ver[:1], 16)`, `hw_minor = int(ver[1:2], 16)`.  None of the
calls is guarded, so a `ValueError` crashes the process. -/
def decode_version (ver : Bytes) : PyResult VersionNums :=
  match pyIntHex (pySlice ver 2 3) with
  | none => .crash
  | some fwMaj =>
    match pyIntHex (ver.drop 3) with
    | none => .crash
    | some fwMin =>
      match pyIntHex (ver.take 1) with
      | none => .crash
      | some hwMaj =>
        match pyIntHex (pySlice ver 1 2) with
        | none => .crash
        | some hwMin => .ok ⟨hwMaj, hwMin, fwMaj, fwMin⟩

/-- Mock transport behaviour of one enumerated port: the outcome of
`init_serial_port` and of each write/read the per-port sequence performs. -/
structure PortMock where
  openOk : Bool
  closeW : WriteOutcome
  closeR : ReadOutcome
  snW : WriteOutcome
  snR : ReadOutcome
  verW : WriteOutcome
  verR : ReadOutcome
deriving DecidableEq

/-- The summary `main` prints for a healthy device. -/
structure Summary where
  serial : Bytes
  version : VersionNums
deriving DecidableEq

/-- Outcome of the per-port body of `main`'s loop. -/
inductive StepResult where
  | done (s : Summary)
  | exit1
  | crash
deriving DecidableEq

/-- Per-port body of `main`'s loop (vscantester.py lines 215-250): any
falsy result of `init_serial_port`, `close_can_channel`,
`get_serial_number` or `get_version_info` prints a message and calls
`sys.exit(1)`; then the version bytes are decoded (uncaught `ValueError`
possible) and the serial is decoded as ASCII for printing (uncaught
`UnicodeDecodeError` on a byte ≥ 128). -/
def main_step (p : PortMock) : StepResult :=
  if p.openOk = false then .exit1
  else
    match close_can_channel p.closeW p.closeR with
    | .crash => .crash
    | .ok b =>
      if b = false then .exit1
      else
        match get_serial_number p.snW p.snR with
        | .crash => .crash
        | .failed _ => .exit1
        | .ok sn =>
          if sn = [] then .exit1
          else
            match get_version_info p.verW p.verR with
            | .crash => .crash
            | .failed _ => .exit1
            | .ok ver =>
              if ver = [] then .exit1
              else
                match decode_version ver with
                | .crash => .crash
                | .ok v =>
                  if sn.any (fun c => 128 ≤ c) then .crash
                  else .done ⟨sn, v⟩

/-- How the process left `main`'s loop. -/
inductive TermStatus where
  | normal
  | exit1
  | crash
deriving DecidableEq

/-- `main`'s loop over the enumerated ports: the summaries printed, and how
the process terminated.  `sys.exit(1)` and an uncaught exception both stop
the loop at once; reaching the end of the list exits normally (status 0). -/
def main_loop : List PortMock → List Summary × TermStatus
  | [] => ([], .normal)
  | p :: rest =>
    match main_step p with
    | .done s =>
      let r := main_loop rest
      (s :: r.1, r.2)
    | .exit1 => ([], .exit1)
    | .crash => ([], .crash)

/-- The 12-byte serial reply `N1234567890\r` of end-to-end scenario 1. -/
def snReplyGood : Bytes := [78, 49, 50, 51, 52, 53, 54, 55, 56, 57, 48, 13]

/-- The 6-byte version reply `V1234\r` of end-to-end scenario 1. -/
def verReplyGood : Bytes := [86, 49, 50, 51, 52, 13]

/-- A healthy mock port: every transport call succeeds and the replies are
those of end-to-end scenario 1. -/
def goodPort : PortMock :=
  { openOk := true, closeW := .ok, closeR := .bytes [13],
    snW := .ok, snR := .bytes snReplyGood,
    verW := .ok, verR := .bytes verReplyGood }

/-- The summary the code actually prints for `goodPort` (note the 9-byte
serial produced by the `buf[1:len(buf)-2]` slice). -/
def goodSummary : Summary :=
  ⟨[49, 50, 51, 52, 53, 54, 55, 56, 57], ⟨1, 2, 3, 4⟩⟩

/-- `goodPort` with the serial-number reply replaced. -/
def withSnReply (buf : Bytes) : PortMock := { goodPort with snR := .bytes buf }

/-- `goodPort` with the version reply replaced. -/
def withVerReply (buf : Bytes) : PortMock := { goodPort with verR := .bytes buf }

/-- `goodPort` with a close-channel reply that is neither ACK nor NAK. -/
def badClosePort : PortMock := { goodPort with closeR := .bytes [65] }

/-- A 10-byte serial reply (short read) that happens to end in a carriage
return: `N12345678\r`. -/
def shortReply10 : Bytes := [78, 49, 50, 51, 52, 53, 54, 55, 56, 13]

/-- The uppercase hex-ASCII digits `0`-`9`, `A`-`F` — the well-formed
version payload bytes of the spec's "(0-F)" contract. -/
def isUpperHexCode (c : Nat) : Prop := (48 ≤ c ∧ c ≤ 57) ∨ (65 ≤ c ∧ c ≤ 70)

instance (c : Nat) : Decidable (isUpperHexCode c) := by
  unfold isUpperHexCode
  infer_instance

/-- Spec-side value of an uppercase hex-ASCII digit. -/
def hexCodeVal (c : Nat) : Nat := if c ≤ 57 then c - 48 else c - 55

/-- Python substring test `pat in s`. -/
def containsSub (s pat : String) : Bool := decide (pat.toList <:+: s.toList)

/-- The OS resources `check_lsmod` / `find_ftdi_driver` touch.  Process
output is modelled as its list of lines (`output.decode('ascii').split`);
`none` models a raised `OSError` when invoking the process or opening the
file. -/
structure SysEnv where
  lsmodOut : Option (List String)
  unameOut : Option (List String)
  isfile : String → Bool
  readLines : String → Option (List String)

/-- `check_lsmod` (vscantester.py lines 148-156): scan `lsmod` output for a
line containing `ftdi_sio`.  A failure to invoke `lsmod` (e.g. the binary
is missing) raises inside `Popen` and is not caught anywhere. -/
def check_lsmod (env : SysEnv) : PyResult Bool :=
  match env.lsmodOut with
  | none => .crash
  | some lines => .ok (lines.any (fun l => containsSub l "ftdi_sio"))

/-- Path of the compiled module file probed with `os.path.isfile`. -/
def ftdiKoPath (kv : String) : String :=
  "/lib/modules/" ++ kv ++ "/kernel/drivers/usb/serial/ftdi_sio.ko"

/-- Path of the kernel's builtin-module manifest. -/
def builtinPath (kv : String) : String := "/lib/modules/" ++ kv ++ "/modules.builtin"

/-- `find_ftdi_driver` (vscantester.py lines 159-183): lsmod check, then
module-file existence, then the builtin manifest, opened with a bare
`open(...)` — a missing manifest raises `FileNotFoundError`, uncaught. -/
def find_ftdi_driver (env : SysEnv) : PyResult Bool :=
  match check_lsmod env with
  | .crash => .crash
  | .ok b =>
    if b then .ok true
    else
      match env.unameOut with
      | none => .crash
      | some out =>
        let kernel_ver := out.headD ""
        if env.isfile (ftdiKoPath kernel_ver) then .ok true
        else
          match env.readLines (builtinPath kernel_ver) with
          | none => .crash
          | some lines => .ok (lines.any (fun l => containsSub l "ftdi_sio.ko"))

/-- An environment with no trace of the driver and no readable builtin
manifest. -/
def noDriverEnv : SysEnv :=
  { lsmodOut := some ["Module                  Size  Used by"],
    unameOut := some ["5.10.0-8"],
    isfile := fun _ => false,
    readLines := fun _ => none }

/-- Like `noDriverEnv`, but the builtin-module manifest is readable and
lists the driver. -/
def builtinEnv : SysEnv :=
  { lsmodOut := some ["Module                  Size  Used by"],
    unameOut := some ["5.10.0-8"],
    isfile := fun _ => false,
    readLines := fun _ => some ["kernel/drivers/usb/serial/ftdi_sio.ko"] }

/-- A received CAN frame as exposed by `bus.recv()` in vscandump.py. -/
structure Frame where
  arbitration_id : Nat
  dlc : Nat
  data : List Nat

/-- Base-16 digits of `n`, most significant first (empty for 0). -/
def hexDigits : Nat → List Nat
  | 0 => []
  | n + 1 => hexDigits ((n + 1) / 16) ++ [(n + 1) % 16]
decreasing_by exact Nat.div_lt_self (Nat.succ_pos n) (by norm_num)

/-- Base-10 digits of `n`, most significant first (empty for 0). -/
def decDigits : Nat → List Nat
  | 0 => []
  | n + 1 => decDigits ((n + 1) / 10) ++ [(n + 1) % 10]
decreasing_by exact Nat.div_lt_self (Nat.succ_pos n) (by norm_num)

/-- ASCII code of the uppercase hex digit for `d < 16`. -/
def hexUpperCode (d : Nat) : Nat := if d < 10 then 48 + d else 55 + d

/-- Python format `"{:X}".format(n)`: uppercase hex, no padding, `0` for 0
(as ASCII codes). -/
def pyFormatX (n : Nat) : Bytes :=
  if n = 0 then [48] else (hexDigits n).map hexUpperCode

/-- Python format `"{}".format(n)` for an integer: decimal digits. -/
def pyStrNat (n : Nat) : Bytes :=
  if n = 0 then [48] else (decDigits n).map (fun d => 48 + d)

/-- Python format `"{:02X}".format(n)`: uppercase hex zero-padded to width 2. -/
def pyFormat02X (n : Nat) : Bytes :=
  let ds := pyFormatX n
  List.replicate (2 - ds.length) 48 ++ ds

/-- The line vscandump.py prints per frame:
`"{:X} [{}] {}".format(msg.arbitration_id, msg.dlc, data)` where `data`
joins `"{:02X} ".format(byte)` over the payload (32/91/93 are the ASCII
codes of space, `[`, `]`). -/
def format_frame (msg : Frame) : Bytes :=
  pyFormatX msg.arbitration_id ++ [32, 91] ++ pyStrNat msg.dlc ++ [93, 32]
    ++ (msg.data.map (fun b => pyFormat02X b ++ [32])).flatten

/-- Whether the dump loop is still running or has reached the
`bus.shutdown()` call after the loop. -/
inductive LoopState where
  | running
  | shutdown
deriving DecidableEq

/-- The guard of the receive loop: literally `while True`. -/
def loop_guard : Bool := true

/-- `n` iterations of vscandump.py's receive loop over the stream `recv` of
incoming frames: the lines printed so far and whether the loop has exited
towards `bus.shutdown()`. -/
def dump_run (recv : Nat → Frame) : Nat → List Bytes × LoopState
  | 0 => ([], .running)
  | n + 1 =>
    let r := dump_run recv n
    match r.2 with
    | .shutdown => r
    | .running =>
      if loop_guard then (r.1 ++ [format_frame (recv n)], .running)
      else (r.1, .shutdown)

/-- Spec-side value of the ASCII codes of an uppercase hex numeral. -/
def fromHexCodes (l : Bytes) : Nat := l.foldl (fun a c => 16 * a + hexCodeVal c) 0

/-- Spec-side value of the ASCII codes of a decimal numeral. -/
def fromDecCodes (l : Bytes) : Nat := l.foldl (fun a c => 10 * a + (c - 48)) 0

lemma close_good : close_can_channel .ok (.bytes [13]) = .ok true := by decide

lemma ver_fetch_good :
    get_version_info .ok (.bytes verReplyGood) = .ok [49, 50, 51, 52] := by decide

lemma decode_good : decode_version [49, 50, 51, 52] = .ok ⟨1, 2, 3, 4⟩ := by decide

lemma sn_fetch_good :
    get_serial_number .ok (.bytes snReplyGood)
      = .ok [49, 50, 51, 52, 53, 54, 55, 56, 57] := by decide

lemma hexDigitVal_upper {c : Nat} (h : isUpperHexCode c) :
    hexDigitVal c = some (hexCodeVal c) := by
  unfold hexDigitVal hexCodeVal
  rcases h with ⟨h1, h2⟩ | ⟨h1, h2⟩ <;> split_ifs <;> first | rfl | omega

lemma hexCodeVal_injOn {a b : Nat} (ha : isUpperHexCode a) (hb : isUpperHexCode b)
    (h : hexCodeVal a = hexCodeVal b) : a = b := by
  unfold hexCodeVal at h
  rcases ha with ⟨_, _⟩ | ⟨_, _⟩ <;> rcases hb with ⟨_, _⟩ | ⟨_, _⟩ <;>
    split_ifs at h <;> omega

lemma pyIntHex_single (c : Nat) : pyIntHex [c] = hexDigitVal c := by
  cases h : hexDigitVal c <;> simp [pyIntHex, h]

lemma parse_version_good (b0 b1 b2 b3 : Nat) :
    parse_version_reply [86, b0, b1, b2, b3, 13] = .ok [b0, b1, b2, b3] := by
  simp [parse_version_reply, pySlice, List.getD]

lemma decode_version_upper {b0 b1 b2 b3 : Nat} (h0 : isUpperHexCode b0)
    (h1 : isUpperHexCode b1) (h2 : isUpperHexCode b2) (h3 : isUpperHexCode b3) :
    decode_version [b0, b1, b2, b3]
      = .ok ⟨hexCodeVal b0, hexCodeVal b1, hexCodeVal b2, hexCodeVal b3⟩ := by
  simp [decode_version, pySlice, pyIntHex_single, hexDigitVal_upper h0,
        hexDigitVal_upper h1, hexDigitVal_upper h2, hexDigitVal_upper h3]

/-- `main_step` on `goodPort` with the serial reply replaced, as a function
of the serial-number fetch alone (every other exchange is healthy). -/
lemma main_step_withSnReply (buf : Bytes) :
    main_step (withSnReply buf) =
      match parse_serial_reply buf with
      | .crash => .crash
      | .failed _ => .exit1
      | .ok sn =>
        if sn = [] then .exit1
        else if sn.any (fun c => 128 ≤ c) then .crash
        else .done ⟨sn, ⟨1, 2, 3, 4⟩⟩ := by
  cases h : parse_serial_reply buf <;>
    simp [main_step, withSnReply, goodPort, get_serial_number, h,
          close_good, ver_fetch_good, decode_good]

/-- `main_step` on `goodPort` with the version reply replaced, as a function
of the version fetch alone (every other exchange is healthy). -/
lemma main_step_withVerReply (buf : Bytes) :
    main_step (withVerReply buf) =
      match parse_version_reply buf with
      | .crash => .crash
      | .failed _ => .exit1
      | .ok ver =>
        if ver = [] then .exit1
        else
          match decode_version ver with
          | .crash => .crash
          | .ok v => .done ⟨[49, 50, 51, 52, 53, 54, 55, 56, 57], v⟩ := by
  cases h : parse_version_reply buf <;>
    simp [main_step, withVerReply, goodPort, get_version_info, h,
          close_good, sn_fetch_good]

/-- C1: the claim says `get_serial_number` returns the 10 payload bytes at
positions 1-10 of a well-framed 12-byte reply; the code's slice
`buf[1:len(buf)-2]` keeps only positions 1-9, so for `N1234567890\r` it
returns `123456789`, not `1234567890`. -/
theorem serial_truncation_c1 :
    get_serial_number .ok (.bytes snReplyGood)
        = .ok [49, 50, 51, 52, 53, 54, 55, 56, 57]
      ∧ ([49, 50, 51, 52, 53, 54, 55, 56, 57] : Bytes)
        ≠ [49, 50, 51, 52, 53, 54, 55, 56, 57, 48] := by
  exact ⟨by decide, by decide⟩

/-- C3: `close_can_channel` succeeds on a single-byte reply exactly when the
byte is 13 (`\r`, ACK) or 7 (bell, NAK), and with a NAK close reply the
tester proceeds through the serial-number query to a full summary. -/
theorem close_accepts_ack_nak_c3 :
    (∀ b : Nat, close_can_channel .ok (.bytes [b]) = .ok true ↔ b = 13 ∨ b = 7)
      ∧ main_step { goodPort with closeR := .bytes [7] } = .done goodSummary := by
  constructor
  · intro b
    by_cases h7 : b = 7 <;> by_cases h13 : b = 13 <;>
      simp_all [close_can_channel, VSCAN_KO, VSCAN_OK]
  · decide

/-- C10: `close_can_channel` is total over the modelled transport outcomes:
it always returns a boolean (never an uncaught exception), an empty 1-byte
read (timeout) yields `false`, and a `SerialException` on the write or the
read is caught and converted to `false`. -/
theorem close_total_c10 :
    ∀ (w : WriteOutcome) (r : ReadOutcome),
      (∃ b : Bool, close_can_channel w r = .ok b)
        ∧ (r = .bytes [] → close_can_channel w r = .ok false)
        ∧ (w = .serialError → close_can_channel w r = .ok false)
        ∧ (r = .serialError → close_can_channel w r = .ok false) := by
  intro w r
  cases w with
  | serialError => cases r <;> simp [close_can_channel]
  | ok =>
    cases r with
    | serialError => simp [close_can_channel]
    | bytes buf =>
      by_cases hb : buf = [7] <;> by_cases hb13 : buf = [13] <;>
        simp_all [close_can_channel, VSCAN_KO, VSCAN_OK]

/-- Witness for C10 at concrete outcomes. -/
theorem close_total_c10_witness :
    close_can_channel .ok (.bytes []) = .ok false
      ∧ close_can_channel .serialError (.bytes [13]) = .ok false
      ∧ close_can_channel .ok .serialError = .ok false := by
  exact ⟨(close_total_c10 .ok (.bytes [])).2.1 rfl,
         (close_total_c10 .serialError (.bytes [13])).2.2.1 rfl,
         (close_total_c10 .ok .serialError).2.2.2 rfl⟩

lemma hexDigits_zero : hexDigits 0 = [] := by simp [hexDigits]

lemma hexDigits_eq {n : Nat} (h : n ≠ 0) :
    hexDigits n = hexDigits (n / 16) ++ [n % 16] := by
  cases n with
  | zero => exact absurd rfl h
  | succ m => simp [hexDigits]

lemma decDigits_zero : decDigits 0 = [] := by simp [decDigits]

lemma decDigits_eq {n : Nat} (h : n ≠ 0) :
    decDigits n = decDigits (n / 10) ++ [n % 10] := by
  cases n with
  | zero => exact absurd rfl h
  | succ m => simp [decDigits]

lemma hexDigits_mem_lt : ∀ n, ∀ d ∈ hexDigits n, d < 16 := by
  intro n
  induction n using Nat.strong_induction_on with
  | _ n ih =>
    cases n with
    | zero => simp [hexDigits_zero]
    | succ m =>
      rw [hexDigits_eq (Nat.succ_ne_zero m)]
      intro d hd
      rcases List.mem_append.mp hd with h | h
      · exact ih _ (Nat.div_lt_self (Nat.succ_pos m) (by norm_num)) d h
      · rw [List.mem_singleton.mp h]
        exact Nat.mod_lt _ (by norm_num)

lemma decDigits_mem_lt : ∀ n, ∀ d ∈ decDigits n, d < 10 := by
  intro n
  induction n using Nat.strong_induction_on with
  | _ n ih =>
    cases n with
    | zero => simp [decDigits_zero]
    | succ m =>
      rw [decDigits_eq (Nat.succ_ne_zero m)]
      intro d hd
      rcases List.mem_append.mp hd with h | h
      · exact ih _ (Nat.div_lt_self (Nat.succ_pos m) (by norm_num)) d h
      · rw [List.mem_singleton.mp h]
        exact Nat.mod_lt _ (by norm_num)

lemma hexCodeVal_hexUpperCode {d : Nat} (h : d < 16) :
    hexCodeVal (hexUpperCode d) = d := by
  unfold hexCodeVal hexUpperCode
  split_ifs <;> omega

lemma isUpperHexCode_hexUpperCode {d : Nat} (h : d < 16) :
    isUpperHexCode (hexUpperCode d) := by
  unfold isUpperHexCode hexUpperCode
  split_ifs <;> omega

lemma foldl_hexDigits : ∀ n acc : Nat,
    ((hexDigits n).map hexUpperCode).foldl (fun a c => 16 * a + hexCodeVal c) acc
      = acc * 16 ^ (hexDigits n).length + n := by
  intro n
  induction n using Nat.strong_induction_on with
  | _ n ih =>
    intro acc
    cases n with
    | zero => simp [hexDigits_zero]
    | succ m =>
      rw [hexDigits_eq (Nat.succ_ne_zero m), List.map_append, List.foldl_append,
          List.length_append]
      simp only [List.map_cons, List.map_nil, List.foldl_cons, List.foldl_nil,
                 List.length_cons, List.length_nil]
      rw [ih ((m + 1) / 16) (Nat.div_lt_self (Nat.succ_pos m) (by norm_num)) acc,
          hexCodeVal_hexUpperCode (Nat.mod_lt _ (by norm_num))]
      have hdm : 16 * ((m + 1) / 16) + (m + 1) % 16 = m + 1 := Nat.div_add_mod _ _
      conv_rhs => rw [← hdm]
      ring

lemma foldl_decDigits : ∀ n acc : Nat,
    ((decDigits n).map (fun d => 48 + d)).foldl (fun a c => 10 * a + (c - 48)) acc
      = acc * 10 ^ (decDigits n).length + n := by
  intro n
  induction n using Nat.strong_induction_on with
  | _ n ih =>
    intro acc
    cases n with
    | zero => simp [decDigits_zero]
    | succ m =>
      rw [decDigits_eq (Nat.succ_ne_zero m), List.map_append, List.foldl_append,
          List.length_append]
      simp only [List.map_cons, List.map_nil, List.foldl_cons, List.foldl_nil,
                 List.length_cons, List.length_nil]
      rw [ih ((m + 1) / 10) (Nat.div_lt_self (Nat.succ_pos m) (by norm_num)) acc]
      have hd48 : 48 + (m + 1) % 10 - 48 = (m + 1) % 10 := by omega
      rw [hd48]
      have hdm : 10 * ((m + 1) / 10) + (m + 1) % 10 = m + 1 := Nat.div_add_mod _ _
      conv_rhs => rw [← hdm]
      ring

lemma fromHex_pyFormatX (n : Nat) : fromHexCodes (pyFormatX n) = n := by
  unfold pyFormatX fromHexCodes
  split_ifs with h
  · subst h
    decide
  · simpa using foldl_hexDigits n 0

lemma fromDec_pyStrNat (n : Nat) : fromDecCodes (pyStrNat n) = n := by
  unfold pyStrNat fromDecCodes
  split_ifs with h
  · subst h
    decide
  · simpa using foldl_decDigits n 0

lemma pyFormatX_upper (n : Nat) : ∀ c ∈ pyFormatX n, isUpperHexCode c := by
  intro c hc
  unfold pyFormatX at hc
  split_ifs at hc with h
  · rw [List.mem_singleton.mp hc]
    decide
  · rcases List.mem_map.mp hc with ⟨d, hd, rfl⟩
    exact isUpperHexCode_hexUpperCode (hexDigits_mem_lt n d hd)

lemma pyStrNat_digits (n : Nat) : ∀ c ∈ pyStrNat n, 48 ≤ c ∧ c ≤ 57 := by
  intro c hc
  unfold pyStrNat at hc
  split_ifs at hc with h
  · rw [List.mem_singleton.mp hc]
    omega
  · rcases List.mem_map.mp hc with ⟨d, hd, rfl⟩
    have := decDigits_mem_lt n d hd
    omega

lemma pyFormat02X_spec {b : Nat} (h : b < 256) :
    (pyFormat02X b).length = 2 ∧ fromHexCodes (pyFormat02X b) = b
      ∧ ∀ c ∈ pyFormat02X b, isUpperHexCode c := by
  by_cases h0 : b = 0
  · subst h0
    exact ⟨by decide, by decide, by decide⟩
  by_cases h16 : b < 16
  · have hx : pyFormatX b = [hexUpperCode b] := by
      unfold pyFormatX
      rw [if_neg h0, hexDigits_eq h0, Nat.div_eq_of_lt h16, Nat.mod_eq_of_lt h16,
          hexDigits_zero]
      rfl
    unfold pyFormat02X
    rw [hx]
    refine ⟨by simp, ?_, ?_⟩
    · show fromHexCodes [48, hexUpperCode b] = b
      have h48 : hexCodeVal 48 = 0 := by decide
      simp [fromHexCodes, List.foldl, h48, hexCodeVal_hexUpperCode h16]
    · intro c hc
      rcases (by simpa using hc : c = 48 ∨ c = hexUpperCode b) with rfl | rfl
      · decide
      · exact isUpperHexCode_hexUpperCode h16
  · have hq0 : b / 16 ≠ 0 := by omega
    have hqlt : b / 16 < 16 := by omega
    have hx : pyFormatX b = [hexUpperCode (b / 16), hexUpperCode (b % 16)] := by
      unfold pyFormatX
      rw [if_neg h0, hexDigits_eq h0, hexDigits_eq hq0, Nat.div_eq_of_lt hqlt,
          Nat.mod_eq_of_lt hqlt, hexDigits_zero]
      rfl
    unfold pyFormat02X
    rw [hx]
    refine ⟨by simp, ?_, ?_⟩
    · show fromHexCodes (List.replicate 0 48 ++ _) = b
      simp [fromHexCodes, hexCodeVal_hexUpperCode hqlt,
            hexCodeVal_hexUpperCode (show b % 16 < 16 by omega)]
      omega
    · intro c hc
      rcases (by simpa using hc :
          c = hexUpperCode (b / 16) ∨ c = hexUpperCode (b % 16)) with rfl | rfl
      · exact isUpperHexCode_hexUpperCode hqlt
      · exact isUpperHexCode_hexUpperCode (show b % 16 < 16 by omega)

lemma dump_run_eq (recv : Nat → Frame) : ∀ n : Nat,
    dump_run recv n = ((List.range n).map fun i => format_frame (recv i), .running) := by
  intro n
  induction n with
  | zero => rfl
  | succ m ih => simp [dump_run, ih, loop_guard, List.range_succ]

/-- C5: a nonempty serial or version reply that fails the first-byte check
(78 = `'N'`, 86 = `'V'`) or the last-byte check (13 = `'\r'`) makes the
parser return `None` with the offending byte reported, never a partial
payload and never an uncaught exception; the process then exits via
`sys.exit(1)` rather than crashing. -/
theorem framing_mismatch_c5 :
    ∀ buf : Bytes, buf ≠ [] →
      (buf.getD 0 0 ≠ 78 →
          get_serial_number .ok (.bytes buf) = .failed (.wrongFirst (buf.getD 0 0))
            ∧ main_step (withSnReply buf) = .exit1)
        ∧ (buf.getD 0 0 = 78 → buf.getD (buf.length - 1) 0 ≠ 13 →
            get_serial_number .ok (.bytes buf)
                = .failed (.wrongLast (buf.getD (buf.length - 1) 0))
              ∧ main_step (withSnReply buf) = .exit1)
        ∧ (buf.getD 0 0 ≠ 86 →
            get_version_info .ok (.bytes buf) = .failed (.wrongFirst (buf.getD 0 0))
              ∧ main_step (withVerReply buf) = .exit1)
        ∧ (buf.getD 0 0 = 86 → buf.getD (buf.length - 1) 0 ≠ 13 →
            get_version_info .ok (.bytes buf)
                = .failed (.wrongLast (buf.getD (buf.length - 1) 0))
              ∧ main_step (withVerReply buf) = .exit1) := by
  intro buf hne
  have hlen : ¬ buf.length = 0 := by simpa [List.length_eq_zero] using hne
  refine ⟨fun h0 => ?_, fun h0 hL => ?_, fun h0 => ?_, fun h0 hL => ?_⟩
  · have hp : parse_serial_reply buf = .failed (.wrongFirst (buf.getD 0 0)) := by
      unfold parse_serial_reply
      rw [if_neg hlen, if_pos h0]
    exact ⟨by simp [get_serial_number, hp], by simp [main_step_withSnReply, hp]⟩
  · have hp : parse_serial_reply buf
        = .failed (.wrongLast (buf.getD (buf.length - 1) 0)) := by
      unfold parse_serial_reply
      rw [if_neg hlen, if_neg (not_not_intro h0), if_pos hL]
    exact ⟨by simp [get_serial_number, hp], by simp [main_step_withSnReply, hp]⟩
  · have hp : parse_version_reply buf = .failed (.wrongFirst (buf.getD 0 0)) := by
      unfold parse_version_reply
      rw [if_neg hlen, if_pos h0]
    exact ⟨by simp [get_version_info, hp], by simp [main_step_withVerReply, hp]⟩
  · have hp : parse_version_reply buf
        = .failed (.wrongLast (buf.getD (buf.length - 1) 0)) := by
      unfold parse_version_reply
      rw [if_neg hlen, if_neg (not_not_intro h0), if_pos hL]
    exact ⟨by simp [get_version_info, hp], by simp [main_step_withVerReply, hp]⟩

/-- Witness for C5: reply `X\r` fails the serial first-byte check, reply
`V123X` fails the version last-byte check. -/
theorem framing_mismatch_c5_witness :
    (get_serial_number .ok (.bytes [88, 13]) = .failed (.wrongFirst 88)
        ∧ main_step (withSnReply [88, 13]) = .exit1)
      ∧ (get_version_info .ok (.bytes [86, 49, 50, 51, 88]) = .failed (.wrongLast 88)
          ∧ main_step (withVerReply [86, 49, 50, 51, 88]) = .exit1) := by
  exact ⟨(framing_mismatch_c5 [88, 13] (by decide)).1 (by decide),
         ((framing_mismatch_c5 [86, 49, 50, 51, 88] (by decide)).2.2.2
           (by decide) (by decide))⟩

/-- C6 counterexample: a 10-byte serial reply (short read) that happens to
end in `\r` passes both framing checks, so no failure is reported: the
tester returns a truncated 7-byte serial and the run ends normally,
contradicting the claim that every 10-byte reply is rejected. -/
theorem short_read_c6_cex :
    get_serial_number .ok (.bytes shortReply10) = .ok [49, 50, 51, 52, 53, 54, 55]
      ∧ main_loop [withSnReply shortReply10]
          = ([⟨[49, 50, 51, 52, 53, 54, 55], ⟨1, 2, 3, 4⟩⟩], .normal) := by
  exact ⟨by decide, by decide⟩

/-- C6 amended: a 10-byte serial reply whose last byte is not `\r` (the
typical timeout truncation) is rejected with a wrong-last-character report
(the code checks bytes, not lengths), no serial number is produced, and a
run whose only target is that port exits with status 1. -/
theorem short_read_c6 :
    ∀ buf : Bytes, buf.length = 10 → buf.getD 0 0 = 78 → buf.getD 9 0 ≠ 13 →
      get_serial_number .ok (.bytes buf) = .failed (.wrongLast (buf.getD 9 0))
        ∧ main_loop [withSnReply buf] = ([], .exit1) := by
  intro buf hlen h0 hL
  have hL' : buf.getD (buf.length - 1) 0 ≠ 13 := by rw [hlen]; exact hL
  have h := (framing_mismatch_c5 buf (by simp [← List.length_pos_iff_ne_nil, hlen])).2.1 h0 hL'
  rw [hlen] at h
  exact ⟨h.1, by simp [main_loop, h.2]⟩

/-- Witness for C6 at the truncated reply `N123456789` (10 bytes, no
trailing carriage return). -/
theorem short_read_c6_witness :
    get_serial_number .ok (.bytes [78, 49, 50, 51, 52, 53, 54, 55, 56, 57])
        = .failed (.wrongLast 57)
      ∧ main_loop [withSnReply [78, 49, 50, 51, 52, 53, 54, 55, 56, 57]]
          = ([], .exit1) := by
  exact short_read_c6 [78, 49, 50, 51, 52, 53, 54, 55, 56, 57]
    (by decide) (by decide) (by decide)

/-- C7 counterexample: with two enumerated ports where the first fails its
close-channel exchange, the process exits with status 1 at once and the
second (healthy) port is never tested — even though that port alone would
produce a summary — contradicting the claim that the tester moves on to
the next enumerated port. -/
theorem port_abort_c7_cex :
    main_loop [badClosePort, goodPort] = ([], .exit1)
      ∧ main_loop [goodPort] = ([goodSummary], .normal) := by
  exact ⟨by decide, by decide⟩

/-- C7 amended: any per-port failure makes `main` call `sys.exit(1)`
immediately, aborting the whole run: no later enumerated port is
processed and no summary is printed for it, regardless of how many targets
remain. -/
theorem port_abort_c7 :
    (∀ (p : PortMock) (rest : List PortMock),
        main_step p = .exit1 → main_loop (p :: rest) = ([], .exit1))
      ∧ (∀ b : Nat, b ≠ 7 → b ≠ 13 →
          main_step { goodPort with closeR := .bytes [b] } = .exit1) := by
  constructor
  · intro p rest h
    simp [main_loop, h]
  · intro b h7 h13
    simp [main_step, goodPort, close_can_channel, VSCAN_KO, VSCAN_OK, h7, h13]

/-- Witness for C7: a port whose close reply is the byte 65 fails, and with
a healthy port still queued the loop stops with exit status 1. -/
theorem port_abort_c7_witness :
    main_step { goodPort with closeR := .bytes [65] } = .exit1
      ∧ main_loop [{ goodPort with closeR := .bytes [65] }, goodPort]
          = ([], .exit1) := by
  have h2 := port_abort_c7.2 65 (by decide) (by decide)
  exact ⟨h2, port_abort_c7.1 _ [goodPort] h2⟩

/-- C2: a well-formed 6-byte version reply `V b0 b1 b2 b3 \r` (bytes from
the uppercase hex-ASCII digits) yields exactly the middle 4 bytes, which
`main` decodes as hardware-major/minor from bytes 0/1 and
firmware-major/minor from bytes 2/3, each an independent single hex digit;
the decoding is injective over such payloads. -/
theorem version_decode_c2 :
    ∀ b0 b1 b2 b3 : Nat,
      isUpperHexCode b0 → isUpperHexCode b1 → isUpperHexCode b2 → isUpperHexCode b3 →
      get_version_info .ok (.bytes [86, b0, b1, b2, b3, 13]) = .ok [b0, b1, b2, b3]
        ∧ decode_version [b0, b1, b2, b3]
            = .ok ⟨hexCodeVal b0, hexCodeVal b1, hexCodeVal b2, hexCodeVal b3⟩
        ∧ (∀ c0 c1 c2 c3 : Nat,
            isUpperHexCode c0 → isUpperHexCode c1 → isUpperHexCode c2 →
            isUpperHexCode c3 →
            decode_version [b0, b1, b2, b3] = decode_version [c0, c1, c2, c3] →
            b0 = c0 ∧ b1 = c1 ∧ b2 = c2 ∧ b3 = c3) := by
  intro b0 b1 b2 b3 h0 h1 h2 h3
  refine ⟨?_, decode_version_upper h0 h1 h2 h3, ?_⟩
  · simp [get_version_info, parse_version_good]
  · intro c0 c1 c2 c3 hc0 hc1 hc2 hc3 heq
    rw [decode_version_upper h0 h1 h2 h3, decode_version_upper hc0 hc1 hc2 hc3] at heq
    simp only [PyResult.ok.injEq, VersionNums.mk.injEq] at heq
    obtain ⟨e0, e1, e2, e3⟩ := heq
    exact ⟨hexCodeVal_injOn h0 hc0 e0, hexCodeVal_injOn h1 hc1 e1,
           hexCodeVal_injOn h2 hc2 e2, hexCodeVal_injOn h3 hc3 e3⟩

/-- Witness for C2 at the reply `VA9F0\r`: payload `A9F0`, decoded as
hardware 10:9, firmware 15:0. -/
theorem version_decode_c2_witness :
    get_version_info .ok (.bytes [86, 65, 57, 70, 48, 13]) = .ok [65, 57, 70, 48]
      ∧ decode_version [65, 57, 70, 48] = .ok ⟨10, 9, 15, 0⟩ := by
  have h := version_decode_c2 65 57 70 48 (by decide) (by decide) (by decide) (by decide)
  exact ⟨h.1, h.2.1⟩

/-- C4 counterexample: the all-`Z` version payload passes the framing
checks, and the unguarded `int(..., 16)` calls in `main` then raise an
uncaught `ValueError`: the process crashes instead of reporting a decode
failure. -/
theorem version_decode_crash_c4_cex :
    decode_version [90, 90, 90, 90] = .crash
      ∧ main_step (withVerReply [86, 90, 90, 90, 90, 13]) = .crash := by
  exact ⟨by decide, by decide⟩

/-- C4 amended: whenever any byte of the 4-byte version payload is rejected
by single-digit hex parsing (`int(c, 16)` raises), the decode crashes the
process with an uncaught `ValueError` — no decode failure is reported. -/
theorem version_decode_crash_c4 :
    ∀ c0 c1 c2 c3 : Nat,
      hexDigitVal c0 = none ∨ hexDigitVal c1 = none ∨ hexDigitVal c2 = none
          ∨ hexDigitVal c3 = none →
      decode_version [c0, c1, c2, c3] = .crash
        ∧ main_step (withVerReply [86, c0, c1, c2, c3, 13]) = .crash := by
  intro c0 c1 c2 c3 hbad
  have hd : decode_version [c0, c1, c2, c3] = .crash := by
    cases e0 : hexDigitVal c0 <;> cases e1 : hexDigitVal c1 <;>
      cases e2 : hexDigitVal c2 <;> cases e3 : hexDigitVal c3 <;>
      simp_all [decode_version, pySlice, pyIntHex_single]
  refine ⟨hd, ?_⟩
  rw [main_step_withVerReply, parse_version_good]
  simp [hd]

/-- Witness for C4 at the payload `1G23` (the byte 71 = `G` is not a hex
digit). -/
theorem version_decode_crash_c4_witness :
    decode_version [49, 71, 50, 51] = .crash
      ∧ main_step (withVerReply [86, 49, 71, 50, 51, 13]) = .crash := by
  exact version_decode_crash_c4 49 71 50 51 (Or.inr (Or.inl (by decide)))

/-- C8 counterexample: in an environment where the lsmod and module-file
checks fail and the builtin manifest cannot be opened, `find_ftdi_driver`
raises an uncaught `FileNotFoundError` instead of silently treating the
check as failed and returning false. -/
theorem ftdi_probe_c8_cex :
    find_ftdi_driver noDriverEnv = .crash
      ∧ find_ftdi_driver noDriverEnv ≠ .ok false := by
  exact ⟨by decide, by decide⟩

/-- C8 amended: `find_ftdi_driver` returns true on the first of its three
checks that succeeds and false only when all three fail, provided each
check's process invocation and file read succeed; a failure to invoke
`lsmod`/`uname` or to open the builtin-module manifest raises an uncaught
exception rather than being treated as a failed check. -/
theorem ftdi_probe_c8 :
    ∀ env : SysEnv,
      (env.lsmodOut = none → find_ftdi_driver env = .crash)
        ∧ (∀ lines, env.lsmodOut = some lines →
            (lines.any (fun l => containsSub l "ftdi_sio") = true →
                find_ftdi_driver env = .ok true)
              ∧ (lines.any (fun l => containsSub l "ftdi_sio") = false →
                  (env.unameOut = none → find_ftdi_driver env = .crash)
                    ∧ (∀ out, env.unameOut = some out →
                        (env.isfile (ftdiKoPath (out.headD "")) = true →
                            find_ftdi_driver env = .ok true)
                          ∧ (env.isfile (ftdiKoPath (out.headD "")) = false →
                              (env.readLines (builtinPath (out.headD "")) = none →
                                  find_ftdi_driver env = .crash)
                                ∧ (∀ blines,
                                    env.readLines (builtinPath (out.headD ""))
                                        = some blines →
                                    find_ftdi_driver env
                                      = .ok (blines.any
                                          (fun l => containsSub l "ftdi_sio.ko"))))))) := by
  intro env
  refine ⟨fun h => ?_,
          fun lines hl => ⟨fun ha => ?_,
            fun ha => ⟨fun hu => ?_,
              fun out hout => ⟨fun hf => ?_,
                fun hf => ⟨fun hr => ?_, fun blines hb => ?_⟩⟩⟩⟩⟩
  · simp [find_ftdi_driver, check_lsmod, h]
  · simp [find_ftdi_driver, check_lsmod, hl, ha]
  · simp [find_ftdi_driver, check_lsmod, hl, ha, hu]
  · simp only [List.headD_eq_head?] at hf
    simp [find_ftdi_driver, check_lsmod, hl, ha, hout, hf]
  · simp only [List.headD_eq_head?] at hf hr
    simp [find_ftdi_driver, check_lsmod, hl, ha, hout, hf, hr]
  · simp only [List.headD_eq_head?] at hf hb
    simp [find_ftdi_driver, check_lsmod, hl, ha, hout, hf, hb]

/-- Witness for C8: with lsmod and module-file checks failing but a
readable manifest listing `ftdi_sio.ko`, the probe reports true via its
third check. -/
theorem ftdi_probe_c8_witness : find_ftdi_driver builtinEnv = .ok true := by
  have h := (((((ftdi_probe_c8 builtinEnv).2
      ["Module                  Size  Used by"] rfl).2 (by decide)).2
      ["5.10.0-8"] rfl).2 rfl).2 ["kernel/drivers/usb/serial/ftdi_sio.ko"] rfl
  rw [h]
  decide

/-- C9: after any number `n` of loop iterations the dump loop is still
running (the `while True` guard never lets it reach `bus.shutdown()`), it
has printed exactly one line per received frame, line `i` being the
formatted frame `i`; and the formatting is faithful: the arbitration-id
field is an uppercase-hex numeral whose value is the id, each payload byte
prints as exactly two uppercase-hex characters recovering the byte, and the
DLC prints as a decimal numeral recovering its value. -/
theorem dump_loop_c9 :
    (∀ (recv : Nat → Frame) (n : Nat),
        (dump_run recv n).2 = .running
          ∧ (dump_run recv n).1.length = n
          ∧ ∀ i : Nat, i < n →
              ((dump_run recv n).1)[i]? = some (format_frame (recv i)))
      ∧ (∀ m : Nat, fromHexCodes (pyFormatX m) = m
          ∧ ∀ c ∈ pyFormatX m, isUpperHexCode c)
      ∧ (∀ b : Nat, b < 256 →
          (pyFormat02X b).length = 2 ∧ fromHexCodes (pyFormat02X b) = b
            ∧ ∀ c ∈ pyFormat02X b, isUpperHexCode c)
      ∧ (∀ m : Nat, fromDecCodes (pyStrNat m) = m
          ∧ ∀ c ∈ pyStrNat m, 48 ≤ c ∧ c ≤ 57) := by
  refine ⟨?_, fun m => ⟨fromHex_pyFormatX m, pyFormatX_upper m⟩,
          fun b hb => pyFormat02X_spec hb,
          fun m => ⟨fromDec_pyStrNat m, pyStrNat_digits m⟩⟩
  intro recv n
  rw [dump_run_eq]
  refine ⟨rfl, by simp, ?_⟩
  intro i hi
  simp [List.getElem?_range, hi]

/-- Witness for C9 on a concrete two-frame run with id 0x1AB, DLC 3 and
payload bytes 0x00 0xFF 0x10. -/
theorem dump_loop_c9_witness :
    ((dump_run (fun _ => ⟨427, 3, [0, 255, 16]⟩) 2).1)[1]?
        = some (format_frame ⟨427, 3, [0, 255, 16]⟩)
      ∧ (pyFormat02X 255).length = 2 ∧ fromHexCodes (pyFormat02X 255) = 255
      ∧ isUpperHexCode 48 := by
  refine ⟨(dump_loop_c9.1 (fun _ => ⟨427, 3, [0, 255, 16]⟩) 2).2.2 1 (by decide),
          (dump_loop_c9.2.2.1 255 (by decide)).1,
          (dump_loop_c9.2.2.1 255 (by decide)).2.1,
          (dump_loop_c9.2.1 0).2 48 (by decide)⟩

end VSCan
